import Mathlib

/-!
Shallow embedding of the fix-rs FIX engine core, translated from the
repository sources:
  * `src/message.rs`   — wire tokenisation, `FieldMap`/`Group`/`Message`,
    the header/body/trailer/group parser and the `Display` rendering;
  * `src/data_dictionary.rs` — dictionary queries and the XML expansion
    (`add_xml_message` / `add_xml_component` / `add_xml_group`);
  * `src/session/session_id.rs` — `SessionId`, its builder and textual id;
  * `src/session/session_schedule.rs` — `SessionSchedule::is_session_time`;
  * `src/session/session_and_state.rs` — `Session::verify`.

Conventions of the embedding:
  * Rust `u32`/`usize` values are `Nat`; the few places where the source
    does `i32` arithmetic (`actual_count`, `previous_offset`, offsets and
    the `declared_count as i32` cast in `parse_group`) use `Int`, with the
    cast wrap made explicit.
  * `HashMap` contents are association lists (`List (κ × α)`); insertion
    replaces the entry for an existing key in place.  `HashSet` contents
    are duplicate-free lists.  `IndexSet` is a list keeping first-insertion
    order.
  * Rust panics (out-of-bounds indexing, `Option::unwrap` on `None`) are
    the explicit result `.stuck`; loops and non-structural recursion carry
    fuel, and exhausted fuel is the explicit result `.fuelOut` (the
    top-level entry points pass enough fuel for every terminating run).
-/

namespace FixRs

/-- The SOH separator, `'\u{01}'` (`src/message.rs`, `SOH`). -/
def SOHchar : Char := Char.ofNat 1

/-- SOH as a one-character string. -/
def sohStr : String := String.mk [SOHchar]

/-- `StringField` from `src/message.rs`: a `(tag, value)` pair. -/
structure StringField where
  tag : Nat
  value : String
deriving DecidableEq, Repr

/-- `Display for StringField`: `format!("{}={}{}", tag, value, SOH)`. -/
def StringField.render (f : StringField) : String :=
  Nat.repr f.tag ++ "=" ++ f.value ++ sohStr

/-- The `SessionRejectReason` enum from `src/quickfix_errors.rs`.
A `SessionRejectError` is a wrapper holding one of these kinds, so the
embedding identifies the error with its kind. -/
inductive SessionRejectReason where
  | invalidTag
  | requiredTagMissing
  | undefinedTag
  | tagNotDefinedForMsgType
  | tagSpecifiedWithoutValue
  | valueOutOfRange
  | incorrectDataFormatForValue
  | decryptionProblem
  | signatureProblem
  | compIdProblem
  | sendingTimeAccuracyProblem
  | invalidMessageType
  | xmlValidationError
  | tagAppearsMoreThanOnce
  | tagSpecifiedOutOfOrder
  | repeatingGroupsOutOfOrder
  | incorrectNumInGroupCountForRepeatingGroup
  | nonDataFieldIncludeSOHChar
  | invalidBodyLength
  | invalidChecksum
deriving DecidableEq, Repr

/-- Outcome of running a piece of the Rust parser: `ok`, an early return
with a `SessionRejectError`, a Rust panic (`stuck`), or exhausted fuel. -/
inductive PRes (α : Type) where
  | ok (a : α)
  | err (e : SessionRejectReason)
  | stuck
  | fuelOut

/-- The reject reason of an `err` outcome, if any. -/
def PRes.errReason : PRes α → Option SessionRejectReason
  | .err e => some e
  | _ => none

/-- Whether the outcome is `ok`. -/
def PRes.isOk : PRes α → Bool
  | .ok _ => true
  | _ => false

/-! ### Association-list helpers (contents of `HashMap` values) -/

/-- Insert/replace for an association list: `HashMap::insert` semantics on
the map's contents. -/
def aset {κ α : Type} [BEq κ] : List (κ × α) → κ → α → List (κ × α)
  | [], k, v => [(k, v)]
  | (k0, v0) :: t, k, v =>
    if k0 == k then (k, v) :: t else (k0, v0) :: aset t k v

/-! ### `FieldMap` and `Group` (`src/message.rs`) -/

mutual
/-- `FieldMap`: fields keyed by tag, groups keyed by tag, and an optional
explicit field order. -/
inductive FieldMap : Type where
  | mk (fields : List StringField) (groups : List (Nat × Group))
      (fieldOrder : List Nat) : FieldMap
/-- `Group`: delimiter tag, count tag, declared count value, and the
ordered list of instance `FieldMap`s. -/
inductive Group : Type where
  | mk (delim tag value : Nat) (instances : List FieldMap) : Group
end

def FieldMap.fields : FieldMap → List StringField
  | .mk fs _ _ => fs

def FieldMap.groups : FieldMap → List (Nat × Group)
  | .mk _ gs _ => gs

def FieldMap.fieldOrder : FieldMap → List Nat
  | .mk _ _ ord => ord

/-- `FieldMap::new` / `FieldMap::default`. -/
def FieldMap.empty : FieldMap := .mk [] [] []

/-- `FieldMap::with_field_order`. -/
def FieldMap.withFieldOrder (ord : List Nat) : FieldMap := .mk [] [] ord

def Group.delim : Group → Nat
  | .mk d _ _ _ => d

def Group.tag : Group → Nat
  | .mk _ t _ _ => t

def Group.value : Group → Nat
  | .mk _ _ v _ => v

def Group.instances : Group → List FieldMap
  | .mk _ _ _ is => is

/-- `Group::size`: number of instances. -/
def Group.size (g : Group) : Nat := g.instances.length

/-- Replace the field with the same tag (`HashMap::insert` on the `fields`
map keeps one entry per tag); a fresh tag is appended. -/
def setFieldList : List StringField → StringField → List StringField
  | [], f => [f]
  | g :: gs, f => if g.tag = f.tag then f :: gs else g :: setFieldList gs f

/-- `FieldMap::set_field`. -/
def FieldMap.setField : FieldMap → StringField → FieldMap
  | .mk fs gs ord, f => .mk (setFieldList fs f) gs ord

/-- `FieldMap::get_field::<String>` (string lookup; `FromStr` for `String`
never fails, the `Err` case corresponds to an absent tag). -/
def FieldMap.getField? (m : FieldMap) (tag : Nat) : Option String :=
  (m.fields.find? (fun f => f.tag = tag)).map StringField.value

/-- `FieldMap::get_group`. -/
def FieldMap.getGroup (m : FieldMap) (tag : Nat) : Option Group :=
  m.groups.lookup tag

/-- `FieldMap::set_field_order`. -/
def FieldMap.setFieldOrder : FieldMap → List Nat → FieldMap
  | .mk fs gs _, ord => .mk fs gs ord

/-- Replace the group stored under `tag`. -/
def FieldMap.putGroup : FieldMap → Nat → Group → FieldMap
  | .mk fs gs ord, t, g => .mk fs (aset gs t g) ord

/-- Set instance `i` of a group (mutation through `IndexMut`). -/
def Group.setInstance : Group → Nat → FieldMap → Group
  | .mk d t v is, i, m => .mk d t v (is.set i m)

/-- `FieldMap::set_group`: store the count field, fetch or create the
group entry, append `value` fresh instances, and return the map together
with the group the Rust code holds a mutable borrow of. -/
def FieldMap.setGroup (m : FieldMap) (tag value delim : Nat) :
    FieldMap × Group :=
  let m1 := m.setField ⟨tag, Nat.repr value⟩
  let g0 := (m1.getGroup tag).getD (Group.mk delim tag value [])
  let g1 : Group :=
    .mk g0.delim g0.tag g0.value
      (g0.instances ++ List.replicate value FieldMap.empty)
  (m1.putGroup tag g1, g1)

end FixRs

namespace FixRs

/-! ### Rendering (`FieldMapIter::fieldmap_to_vec`, `Display` impls) -/

/-- Sort key used by `fieldmap_to_vec`: the position of the tag in
`field_order`, or `usize::MAX` when absent (any value larger than every
real position sorts identically; the embedding uses `usize::MAX` itself). -/
def fieldPos (ord : List Nat) (t : Nat) : Nat :=
  match ord.findIdx? (fun n => n = t) with
  | some i => i
  | none => 18446744073709551615

/-- Stable insertion into a key-sorted list: an element is placed before
the first element of strictly larger or equal key inserted later, which
reproduces the stable `sort_by_cached_key`. -/
def insertByKey {α : Type} (key : α → Nat) (x : α) : List α → List α
  | [] => [x]
  | y :: ys =>
    if key x ≤ key y then x :: y :: ys else y :: insertByKey key x ys

/-- Stable sort by key (model of `Vec::sort_by_cached_key`, which is a
stable sort). -/
def sortByKey {α : Type} (key : α → Nat) : List α → List α
  | [] => []
  | x :: xs => insertByKey key x (sortByKey key xs)

/-- `FieldMapIter::fieldmap_to_vec`: flatten a `FieldMap` to the ordered
field sequence, sorting by `field_order` when one is set and inlining each
group's instances after its count field.  The recursion through group
instances carries fuel; every rendering in this file uses fuel larger than
the nesting depth. -/
def FieldMap.iterFields : Nat → FieldMap → List StringField
  | 0, _ => []
  | fuel + 1, m =>
    let sorted :=
      if m.fieldOrder.isEmpty then m.fields
      else sortByKey (fun f => fieldPos m.fieldOrder f.tag) m.fields
    (sorted.map (fun f =>
      f :: (match m.getGroup f.tag with
            | some g =>
              (g.instances.map (FieldMap.iterFields fuel)).flatten
            | none => []))).flatten

/-- Fuel for rendering: larger than any group-nesting depth arising in
this development. -/
def renderFuel : Nat := 64

/-- `Display for FieldMap`: concatenate the rendered fields of `iter()`. -/
def FieldMap.render (m : FieldMap) : String :=
  String.join ((m.iterFields renderFuel).map StringField.render)

/-! ### `Message` (`src/message.rs`) -/

/-- `Message`: header, body and trailer maps. -/
structure Message where
  header : FieldMap
  body : FieldMap
  trailer : FieldMap

/-- `Message::new`: the header carries the fixed order `[8, 9, 35]`. -/
def Message.new : Message :=
  ⟨FieldMap.withFieldOrder [8, 9, 35], FieldMap.empty, FieldMap.empty⟩

/-- `Display for Message`: header, then body, then trailer. -/
def Message.render (m : Message) : String :=
  m.header.render ++ m.body.render ++ m.trailer.render

/-- `Message::get_msg_type`: field 35 of the header. -/
def Message.getMsgType? (m : Message) : Option String :=
  m.header.getField? 35

/-! ### `DataDictionary` (`src/data_dictionary.rs`)

Only the components consulted by parsing and built by the XML expansion
are carried: `msg_fields`, `msg_required_fields`, `groups` and
`fields_order`.  (`fields_by_tag`, field types, enum domains and message
categories are never read by the functions the claims concern.) -/

mutual
/-- `DataDictionary` (the parsing/expansion-relevant portion). -/
inductive DataDictionary : Type where
  | mk (msgFields : List (String × List Nat))
      (msgRequiredFields : List (String × List Nat))
      (groups : List (String × List (Nat × GroupInfo)))
      (fieldsOrder : List Nat) : DataDictionary
/-- `GroupInfo`: delimiter and the group's own inner dictionary. -/
inductive GroupInfo : Type where
  | mk (delimiter : Nat) (groupDD : DataDictionary) : GroupInfo
end

def DataDictionary.msgFields : DataDictionary → List (String × List Nat)
  | .mk a _ _ _ => a

def DataDictionary.msgRequiredFields :
    DataDictionary → List (String × List Nat)
  | .mk _ a _ _ => a

def DataDictionary.groups :
    DataDictionary → List (String × List (Nat × GroupInfo))
  | .mk _ _ a _ => a

def DataDictionary.fieldsOrder : DataDictionary → List Nat
  | .mk _ _ _ a => a

/-- `DataDictionary::default`. -/
def DataDictionary.empty : DataDictionary := .mk [] [] [] []

def GroupInfo.delimiter : GroupInfo → Nat
  | .mk d _ => d

def GroupInfo.groupDD : GroupInfo → DataDictionary
  | .mk _ dd => dd

/-- `HEADER_ID`, the msg-type token the parser uses for the header. -/
def HEADER_ID : String := "Header"

/-- `TRAILER_ID`. -/
def TRAILER_ID : String := "Trailer"

/-- `DataDictionary::is_msg_field`. -/
def DataDictionary.isMsgField (dd : DataDictionary) (msgType : String)
    (tag : Nat) : Bool :=
  match dd.msgFields.lookup msgType with
  | some l => l.contains tag
  | none => false

/-- `DataDictionary::is_msg_req_field`. -/
def DataDictionary.isMsgReqField (dd : DataDictionary) (msgType : String)
    (tag : Nat) : Bool :=
  match dd.msgRequiredFields.lookup msgType with
  | some l => l.contains tag
  | none => false

/-- `DataDictionary::is_header_field`. -/
def DataDictionary.isHeaderField (dd : DataDictionary) (tag : Nat) : Bool :=
  dd.isMsgField HEADER_ID tag

/-- `DataDictionary::is_trailer_field`. -/
def DataDictionary.isTrailerField (dd : DataDictionary) (tag : Nat) : Bool :=
  dd.isMsgField TRAILER_ID tag

/-- `DataDictionary::get_msg_group`. -/
def DataDictionary.getMsgGroup (dd : DataDictionary) (msgType : String)
    (tag : Nat) : Option GroupInfo :=
  match dd.groups.lookup msgType with
  | some m => m.lookup tag
  | none => none

/-- `DataDictionary::is_msg_group`. -/
def DataDictionary.isMsgGroup (dd : DataDictionary) (msgType : String)
    (tag : Nat) : Bool :=
  (dd.getMsgGroup msgType tag).isSome

/-- `DataDictionary::get_ordered_fields`. -/
def DataDictionary.getOrderedFields (dd : DataDictionary) : List Nat :=
  dd.fieldsOrder

end FixRs

namespace FixRs

/-! ### Wire tokenisation (`Message::from_str`, `src/message.rs`) -/

/-- `str::parse::<u32>`: an optional leading `+`, then one or more ASCII
digits, value below `2^32`. -/
def parseU32 (s : String) : Option Nat :=
  let cs :=
    match s.data with
    | '+' :: rest => rest
    | cs => cs
  if cs.isEmpty then none
  else if cs.all Char.isDigit then
    let n := cs.foldl (fun a c => a * 10 + (c.toNat - 48)) 0
    if n < 4294967296 then some n else none
  else none

/-- `str::split_once('=')`: split at the first `=`. -/
def splitOnceEqAux : List Char → Option (List Char × List Char)
  | [] => none
  | c :: cs =>
    if c = '=' then some ([], cs)
    else (splitOnceEqAux cs).map (fun p => (c :: p.1, p.2))

/-- `str::split_once('=')` on strings. -/
def splitOnceEq (s : String) : Option (String × String) :=
  (splitOnceEqAux s.data).map (fun p => (String.mk p.1, String.mk p.2))

/-- Split a character list on a separator; like `str::split`, the result
always has one piece more than the number of separators. -/
def splitListOn (sep : Char) : List Char → List (List Char)
  | [] => [[]]
  | c :: cs =>
    match splitListOn sep cs with
    | acc :: rest =>
      if c = sep then [] :: acc :: rest else (c :: acc) :: rest
    | [] => [[c]]

/-- `str::split_terminator(SOH)`: split on SOH, dropping one trailing
empty piece. -/
def splitTerminatorSOH (s : String) : List String :=
  let parts := (splitListOn SOHchar s.data).map String.mk
  if parts.getLast? = some "" then parts.dropLast else parts

/-- The tokenisation loop of `Message::from_str`: each piece is split at
its first `=`; a missing `=` or an unparsable tag is `InvalidTag`, an
empty value is `TagSpecifiedWithoutValue`. -/
def tokenizePieces : List String → PRes (List StringField)
  | [] => .ok []
  | piece :: rest =>
    match splitOnceEq piece with
    | none => .err .invalidTag
    | some (t, v) =>
      match parseU32 t with
      | none => .err .invalidTag
      | some tag =>
        if v = "" then .err .tagSpecifiedWithoutValue
        else
          match tokenizePieces rest with
          | .ok fs => .ok (⟨tag, v⟩ :: fs)
          | .err r => .err r
          | .stuck => .stuck
          | .fuelOut => .fuelOut

/-- Tokenise a raw string into the field deque of `Message::from_str`. -/
def tokenize (s : String) : PRes (List StringField) :=
  tokenizePieces (splitTerminatorSOH s)

/-! ### The parser (`parse_header` / `parse_body` / `parse_trailer` /
`parse_group`, `src/message.rs`) -/

/-- `BeginString::field()` — tag 8 (generated field accessors from the
dictionary XML; the tag numbers 8, 9, 35 are fixed by the FIX standard
and by the spec's framing section). -/
def beginStringField : Nat := 8

/-- `BodyLength::field()` — tag 9. -/
def bodyLengthField : Nat := 9

/-- `MsgType::field()` — tag 35. -/
def msgTypeField : Nat := 35

/-- `declared_count as i32`: the `u32 → i32` cast, wrapping above
`2^31`. -/
def u32AsI32 (n : Nat) : Int :=
  if n < 2147483648 then (n : Int) else (n : Int) - 4294967296

mutual
/-- `parse_group` (src/message.rs:411-476): look up the group info, parse
the declared count, create the group with that many fresh instances, and
run the consumption loop. -/
def parseGroup (fuel : Nat) (dd : DataDictionary) (msgType : String)
    (fld : StringField) (fmap : FieldMap) (v : List StringField) :
    PRes (FieldMap × List StringField) :=
  match fuel with
  | 0 => .fuelOut
  | fuel + 1 =>
    match dd.getMsgGroup msgType fld.tag with
    | none => .err .tagNotDefinedForMsgType
    | some rg =>
      match parseU32 fld.value with
      | none => .err .incorrectDataFormatForValue
      | some declared =>
        parseGroupLoop fuel dd rg.groupDD msgType
          rg.groupDD.getOrderedFields rg.delimiter (u32AsI32 declared)
          (fmap.setGroup fld.tag declared rg.delimiter).1 fld.tag
          (fmap.setGroup fld.tag declared rg.delimiter).2 (-1) (-1) v

/-- The `while let Some(next_field) = v.pop_front()` loop of
`parse_group`, with the final `actual_count + 1 != declared_count`
check. -/
def parseGroupLoop (fuel : Nat) (dd rgdd : DataDictionary)
    (msgType : String) (fieldOrder : List Nat) (delim : Nat)
    (declaredI : Int) (fmap1 : FieldMap) (countTag : Nat) (group : Group)
    (actual prevOff : Int) (v : List StringField) :
    PRes (FieldMap × List StringField) :=
  match fuel with
  | 0 => .fuelOut
  | fuel + 1 =>
    match v with
    | [] =>
      if actual + 1 ≠ declaredI then
        .err .incorrectNumInGroupCountForRepeatingGroup
      else .ok (fmap1.putGroup countTag group, [])
    | nf :: rest =>
      if nf.tag = delim then
        if actual + 1 + 1 ≥ declaredI then
          .err .incorrectNumInGroupCountForRepeatingGroup
        else
          match group.instances.get? (actual + 1).toNat with
          | none => .stuck
          | some inst0 =>
            if rgdd.isMsgGroup msgType nf.tag then
              match parseGroup fuel dd msgType nf
                  (inst0.setFieldOrder fieldOrder) rest with
              | .ok (inst2, v2) =>
                parseGroupLoop fuel dd rgdd msgType fieldOrder delim
                  declaredI fmap1 countTag
                  (group.setInstance (actual + 1).toNat inst2) (actual + 1)
                  (-1) v2
              | .err r => .err r
              | .stuck => .stuck
              | .fuelOut => .fuelOut
            else
              parseGroupLoop fuel dd rgdd msgType fieldOrder delim
                declaredI fmap1 countTag
                (group.setInstance (actual + 1).toNat
                  ((inst0.setFieldOrder fieldOrder).setField nf))
                (actual + 1) (-1) rest
      else if rgdd.isMsgGroup msgType nf.tag then
        if actual < 0 then .err .requiredTagMissing
        else
          match group.instances.get? actual.toNat with
          | none => .stuck
          | some inst0 =>
            match parseGroup fuel dd msgType nf inst0 rest with
            | .ok (inst2, v2) =>
              parseGroupLoop fuel dd rgdd msgType fieldOrder delim
                declaredI fmap1 countTag
                (group.setInstance actual.toNat inst2) actual prevOff v2
            | .err r => .err r
            | .stuck => .stuck
            | .fuelOut => .fuelOut
      else if rgdd.isMsgField msgType nf.tag then
        if actual < 0 then .err .requiredTagMissing
        else
          match fieldOrder.findIdx? (fun t => t = nf.tag) with
          | none => .stuck
          | some pos =>
            if (pos : Int) < prevOff then .err .repeatingGroupsOutOfOrder
            else
              match group.instances.get? actual.toNat with
              | none => .stuck
              | some inst0 =>
                parseGroupLoop fuel dd rgdd msgType fieldOrder delim
                  declaredI fmap1 countTag
                  (group.setInstance actual.toNat (inst0.setField nf))
                  actual (pos : Int) rest
      else
        if actual + 1 ≠ declaredI then
          .err .incorrectNumInGroupCountForRepeatingGroup
        else .ok (fmap1.putGroup countTag group, nf :: rest)
end

/-- The consumption loop of `parse_header` (src/message.rs:487-497). -/
def parseHeaderLoop (fuel : Nat) (dd : DataDictionary)
    (header : FieldMap) (v : List StringField) :
    PRes (FieldMap × List StringField) :=
  match fuel with
  | 0 => .fuelOut
  | fuel + 1 =>
    match v with
    | [] => .ok (header, [])
    | fld :: rest =>
      if ¬ dd.isHeaderField fld.tag then .ok (header, fld :: rest)
      else if dd.isMsgGroup HEADER_ID fld.tag then
        match parseGroup fuel dd HEADER_ID fld header rest with
        | .ok (header1, v1) => parseHeaderLoop fuel dd header1 v1
        | .err r => .err r
        | .stuck => .stuck
        | .fuelOut => .fuelOut
      else parseHeaderLoop fuel dd (header.setField fld) rest

/-- `parse_header` (src/message.rs:478-499): `v[0] / v[1] / v[2]` must be
tags 8, 9, 35; the short-circuit `||` means a wrong earlier tag rejects
before a missing later index panics.  Then the header loop runs on the
whole deque. -/
def parseHeader (fuel : Nat) (dd : DataDictionary) (header : FieldMap)
    (v : List StringField) : PRes (FieldMap × List StringField) :=
  match v with
  | [] => .stuck
  | f0 :: t0 =>
    if f0.tag ≠ beginStringField then .err .tagSpecifiedOutOfOrder
    else
      match t0 with
      | [] => .stuck
      | f1 :: t1 =>
        if f1.tag ≠ bodyLengthField then .err .tagSpecifiedOutOfOrder
        else
          match t1 with
          | [] => .stuck
          | f2 :: _ =>
            if f2.tag ≠ msgTypeField then .err .tagSpecifiedOutOfOrder
            else parseHeaderLoop fuel dd header v

/-- The consumption loop of `parse_body` (src/message.rs:508-521). -/
def parseBodyLoop (fuel : Nat) (dd : DataDictionary) (msgType : String)
    (body : FieldMap) (v : List StringField) :
    PRes (FieldMap × List StringField) :=
  match fuel with
  | 0 => .fuelOut
  | fuel + 1 =>
    match v with
    | [] => .ok (body, [])
    | fld :: rest =>
      if dd.isHeaderField fld.tag then .err .tagSpecifiedOutOfOrder
      else if dd.isTrailerField fld.tag then .ok (body, fld :: rest)
      else if dd.isMsgGroup msgType fld.tag then
        match parseGroup fuel dd msgType fld body rest with
        | .ok (body1, v1) => parseBodyLoop fuel dd msgType body1 v1
        | .err r => .err r
        | .stuck => .stuck
        | .fuelOut => .fuelOut
      else parseBodyLoop fuel dd msgType (body.setField fld) rest

/-- `parse_body` (src/message.rs:501-523): the message type is read from
header tag 35 (missing → `RequiredTagMissing`), then the loop runs. -/
def parseBody (fuel : Nat) (dd : DataDictionary) (header body : FieldMap)
    (v : List StringField) : PRes (FieldMap × List StringField) :=
  match (Message.mk header body FieldMap.empty).getMsgType? with
  | none => .err .requiredTagMissing
  | some msgType => parseBodyLoop fuel dd msgType body v

/-- `parse_trailer` (src/message.rs:525-535). -/
def parseTrailer (fuel : Nat) (dd : DataDictionary) (trailer : FieldMap)
    (v : List StringField) : PRes FieldMap :=
  match fuel with
  | 0 => .fuelOut
  | fuel + 1 =>
    match v with
    | [] => .ok trailer
    | fld :: rest =>
      if ¬ dd.isTrailerField fld.tag then .err .tagSpecifiedOutOfOrder
      else parseTrailer fuel dd (trailer.setField fld) rest

/-- `from_vec` (src/message.rs:403-409): run the three phases on a fresh
`Message::new`.  Every loop gets fuel `v.length + 2`, which exceeds the
number of iterations any of them can perform. -/
def fromVec (v : List StringField) (dd : DataDictionary) : PRes Message :=
  let fuel := v.length + 2
  let msg := Message.new
  match parseHeader fuel dd msg.header v with
  | .ok (header1, v1) =>
    (match parseBody fuel dd header1 msg.body v1 with
     | .ok (body1, v2) =>
       (match parseTrailer fuel dd msg.trailer v2 with
        | .ok trailer1 => .ok ⟨header1, body1, trailer1⟩
        | .err r => .err r
        | .stuck => .stuck
        | .fuelOut => .fuelOut)
     | .err r => .err r
     | .stuck => .stuck
     | .fuelOut => .fuelOut)
  | .err r => .err r
  | .stuck => .stuck
  | .fuelOut => .fuelOut

/-- `Message::from_str` (src/message.rs:331-351): tokenise, then
`from_vec`.  No checksum or body-length verification appears anywhere on
this path. -/
def Message.fromStr (s : String) (dd : DataDictionary) : PRes Message :=
  match tokenize s with
  | .ok v => fromVec v dd
  | .err r => .err r
  | .stuck => .stuck
  | .fuelOut => .fuelOut

end FixRs

namespace FixRs

/-! ### XML expansion (`add_xml_message` / `add_xml_component` /
`add_xml_group`, `src/data_dictionary.rs`)

The XML nodes consumed by the expansion are modelled by `XmlChild`
(element children of a message/component/group node, with their `name`
and `required` attributes; `required="Y"` is `true`).  The `components`
section is the name-indexed `NodeMap`; the `fields` section, consulted by
`lookup_field_num_with_name`, is a name-to-number list.  `XmlChild` is a
closed enum of the three recognised element kinds, so the source's
`UnknownXmlTag` arm has no counterpart here. -/

/-- An element child of a message, component or group node. -/
inductive XmlChild : Type where
  | field (name : String) (required : Bool)
  | comp (name : String) (required : Bool)
  | group (name : String) (required : Bool) (children : List XmlChild)

/-- The dictionary-load errors reachable from the modelled expansion
functions (`XmlError` in `src/quickfix_errors.rs`). -/
inductive XmlErr : Type where
  | duplicateField (s : String)
  | xmlNodeNotFound (s : String)
deriving DecidableEq, Repr

/-- Outcome of a dictionary-building step: `ok`, an `XmlError`, a panic
(`components.get(..).unwrap_or_else(panic!)`), or exhausted fuel. -/
inductive BRes (α : Type) where
  | ok (a : α)
  | err (e : XmlErr)
  | stuck
  | fuelOut

/-- Whether the outcome is `ok`. -/
def BRes.isOk : BRes α → Bool
  | .ok _ => true
  | _ => false

/-- `lookup_field_num_with_name`: find the field's number by name in the
document's `fields` section. -/
def lookupFieldNumWithName (doc : List (String × Nat)) (name : String) :
    BRes Nat :=
  match doc.lookup name with
  | some n => .ok n
  | none => .err (.xmlNodeNotFound name)

/-- Rebuild with a changed `msg_fields` entry. -/
def DataDictionary.setMsgFieldsEntry (dd : DataDictionary) (k : String)
    (v : List Nat) : DataDictionary :=
  .mk (aset dd.msgFields k v) dd.msgRequiredFields dd.groups dd.fieldsOrder

/-- Rebuild with a changed `msg_required_fields` entry. -/
def DataDictionary.setMsgRequiredEntry (dd : DataDictionary) (k : String)
    (v : List Nat) : DataDictionary :=
  .mk dd.msgFields (aset dd.msgRequiredFields k v) dd.groups dd.fieldsOrder

/-- `DataDictionary::set_field_for`: reject a duplicate tag for the
msg_type, record it in `msg_fields` and, when required, in
`msg_required_fields`. -/
def DataDictionary.setFieldFor (dd : DataDictionary) (msgType : String)
    (fnum : Nat) (required : Bool) : BRes DataDictionary :=
  let cur := (dd.msgFields.lookup msgType).getD []
  if cur.contains fnum then
    .err (.duplicateField
      ("field " ++ Nat.repr fnum ++ " in message " ++ msgType))
  else
    let dd1 := dd.setMsgFieldsEntry msgType (cur ++ [fnum])
    if required then
      let curR := (dd1.msgRequiredFields.lookup msgType).getD []
      let newR := if curR.contains fnum then curR else curR ++ [fnum]
      .ok (dd1.setMsgRequiredEntry msgType newR)
    else .ok dd1

/-- `DataDictionary::add_fields`: `fields_order` insertion (`IndexSet`
keeps the first-insertion position). -/
def DataDictionary.addFields (dd : DataDictionary) (fnum : Nat) :
    DataDictionary :=
  .mk dd.msgFields dd.msgRequiredFields dd.groups
    (if dd.fieldsOrder.contains fnum then dd.fieldsOrder
     else dd.fieldsOrder ++ [fnum])

/-- `DataDictionary::set_group_info`. -/
def DataDictionary.setGroupInfo (dd : DataDictionary) (msgType : String)
    (grpNum : Nat) (info : GroupInfo) : DataDictionary :=
  let cur := (dd.groups.lookup msgType).getD []
  .mk dd.msgFields dd.msgRequiredFields
    (aset dd.groups msgType (aset cur grpNum info)) dd.fieldsOrder

/-- `DataDictionary::add_fields_to`: look the field number up by name,
`set_field_for`, `add_fields`, and return the number. -/
def DataDictionary.addFieldsTo (dd : DataDictionary) (msgType : String)
    (fieldName : String) (isRequired : Bool) (doc : List (String × Nat)) :
    BRes (DataDictionary × Nat) :=
  match lookupFieldNumWithName doc fieldName with
  | .ok num =>
    (match dd.setFieldFor msgType num isRequired with
     | .ok dd1 => .ok (dd1.addFields num, num)
     | .err e => .err e
     | .stuck => .stuck
     | .fuelOut => .fuelOut)
  | .err e => .err e
  | .stuck => .stuck
  | .fuelOut => .fuelOut

mutual
/-- `add_xml_component` (src/data_dictionary.rs:334-384): walk the
component's children, adding fields into `self` for `msg_type`; the
`required` attribute of a nested component is taken standalone (the
source comment: "required attribute of each comp inside comp is treated
independently, it does not depend on outer component"); a nested group's
count tag is required iff its own attribute AND `is_required`, and the
group body is processed with the group's own attribute only.  Returns the
first field number encountered (`0` when none). -/
def addXmlComponent (fuel : Nat) (dd : DataDictionary) (msgType : String)
    (children : List XmlChild) (isRequired : Bool)
    (components : List (String × List XmlChild))
    (doc : List (String × Nat)) : BRes (DataDictionary × Nat) :=
  match fuel with
  | 0 => .fuelOut
  | fuel + 1 => addXmlComponentLoop fuel dd msgType children isRequired
      components doc 0

/-- The child loop of `add_xml_component`, threading `first_field`. -/
def addXmlComponentLoop (fuel : Nat) (dd : DataDictionary)
    (msgType : String) (children : List XmlChild) (isRequired : Bool)
    (components : List (String × List XmlChild))
    (doc : List (String × Nat)) (firstField : Nat) :
    BRes (DataDictionary × Nat) :=
  match fuel with
  | 0 => .fuelOut
  | fuel + 1 =>
    match children with
    | [] => .ok (dd, firstField)
    | child :: rest =>
      let step : BRes (DataDictionary × Nat) :=
        match child with
        | .field fname frequired =>
          dd.addFieldsTo msgType fname (frequired && isRequired) doc
        | .comp cname crequired =>
          (match components.lookup cname with
           | none => .stuck
           | some compChildren =>
             addXmlComponent fuel dd msgType compChildren crequired
               components doc)
        | .group gname grequired gchildren =>
          (match dd.addFieldsTo msgType gname (grequired && isRequired)
              doc with
           | .ok (dd1, fieldNum) =>
             (match addXmlGroup fuel dd1 msgType gname grequired gchildren
                 components doc with
              | .ok dd2 => .ok (dd2, fieldNum)
              | .err e => .err e
              | .stuck => .stuck
              | .fuelOut => .fuelOut)
           | .err e => .err e
           | .stuck => .stuck
           | .fuelOut => .fuelOut)
      match step with
      | .ok (dd1, num) =>
        addXmlComponentLoop fuel dd1 msgType rest isRequired components
          doc (if firstField = 0 then num else firstField)
      | .err e => .err e
      | .stuck => .stuck
      | .fuelOut => .fuelOut

/-- `add_xml_group` (src/data_dictionary.rs:268-332): build a fresh
`group_dd` from the group's children (field requiredness is the child's
attribute AND `is_required`; a nested component's attribute is taken
standalone; a subgroup's body is processed with the subgroup's own
attribute), record the first field as the delimiter, and store the
`GroupInfo` under the group's tag in `self`. -/
def addXmlGroup (fuel : Nat) (dd : DataDictionary) (msgType : String)
    (groupName : String) (isRequired : Bool) (children : List XmlChild)
    (components : List (String × List XmlChild))
    (doc : List (String × Nat)) : BRes DataDictionary :=
  match fuel with
  | 0 => .fuelOut
  | fuel + 1 =>
    match addXmlGroupLoop fuel DataDictionary.empty msgType children
        isRequired components doc 0 with
    | .ok (groupDD, delimiter) =>
      (match lookupFieldNumWithName doc groupName with
       | .ok groupTag =>
         .ok (dd.setGroupInfo msgType groupTag (.mk delimiter groupDD))
       | .err e => .err e
       | .stuck => .stuck
       | .fuelOut => .fuelOut)
    | .err e => .err e
    | .stuck => .stuck
    | .fuelOut => .fuelOut

/-- The child loop of `add_xml_group`, building the group's inner
dictionary and threading the delimiter (first field, `0` sentinel). -/
def addXmlGroupLoop (fuel : Nat) (groupDD : DataDictionary)
    (msgType : String) (children : List XmlChild) (isRequired : Bool)
    (components : List (String × List XmlChild))
    (doc : List (String × Nat)) (delimiter : Nat) :
    BRes (DataDictionary × Nat) :=
  match fuel with
  | 0 => .fuelOut
  | fuel + 1 =>
    match children with
    | [] => .ok (groupDD, delimiter)
    | child :: rest =>
      let step : BRes (DataDictionary × Nat) :=
        match child with
        | .field fname frequired =>
          groupDD.addFieldsTo msgType fname (frequired && isRequired) doc
        | .comp cname crequired =>
          (match components.lookup cname with
           | none => .stuck
           | some compChildren =>
             addXmlComponent fuel groupDD msgType compChildren crequired
               components doc)
        | .group sgname sgrequired sgchildren =>
          (match groupDD.addFieldsTo msgType sgname
              (sgrequired && isRequired) doc with
           | .ok (gdd1, fieldNum) =>
             (match addXmlGroup fuel gdd1 msgType sgname sgrequired
                 sgchildren components doc with
              | .ok gdd2 => .ok (gdd2, fieldNum)
              | .err e => .err e
              | .stuck => .stuck
              | .fuelOut => .fuelOut)
           | .err e => .err e
           | .stuck => .stuck
           | .fuelOut => .fuelOut)
      match step with
      | .ok (gdd1, num) =>
        addXmlGroupLoop fuel gdd1 msgType rest isRequired components doc
          (if delimiter = 0 then num else delimiter)
      | .err e => .err e
      | .stuck => .stuck
      | .fuelOut => .fuelOut
end

/-- The child loop of `add_xml_message` (src/data_dictionary.rs:409-436):
a field child uses its own `required` attribute; a component child is
expanded with its own attribute; a group child's count tag uses the
group's own attribute, as does the group body. -/
def addXmlMessageLoop (fuel : Nat) (dd : DataDictionary)
    (msgType : String) (children : List XmlChild)
    (components : List (String × List XmlChild))
    (doc : List (String × Nat)) : BRes DataDictionary :=
  match fuel with
  | 0 => .fuelOut
  | fuel + 1 =>
    match children with
    | [] => .ok dd
    | child :: rest =>
      let step : BRes DataDictionary :=
        match child with
        | .field fname frequired =>
          (match dd.addFieldsTo msgType fname frequired doc with
           | .ok (dd1, _) => .ok dd1
           | .err e => .err e
           | .stuck => .stuck
           | .fuelOut => .fuelOut)
        | .comp cname crequired =>
          (match components.lookup cname with
           | none => .stuck
           | some compChildren =>
             (match addXmlComponent fuel dd msgType compChildren
                 crequired components doc with
              | .ok (dd1, _) => .ok dd1
              | .err e => .err e
              | .stuck => .stuck
              | .fuelOut => .fuelOut))
        | .group gname grequired gchildren =>
          (match dd.addFieldsTo msgType gname grequired doc with
           | .ok (dd1, _) =>
             addXmlGroup fuel dd1 msgType gname grequired gchildren
               components doc
           | .err e => .err e
           | .stuck => .stuck
           | .fuelOut => .fuelOut)
      match step with
      | .ok dd1 => addXmlMessageLoop fuel dd1 msgType rest components doc
      | .err e => .err e
      | .stuck => .stuck
      | .fuelOut => .fuelOut

/-- `add_xml_message` (src/data_dictionary.rs:402-438): install empty
`msg_fields` / `msg_required_fields` entries for the msg_type, then
process the children. -/
def addXmlMessage (fuel : Nat) (dd : DataDictionary) (msgType : String)
    (children : List XmlChild)
    (components : List (String × List XmlChild))
    (doc : List (String × Nat)) : BRes DataDictionary :=
  let dd0 := (dd.setMsgFieldsEntry msgType []).setMsgRequiredEntry msgType []
  addXmlMessageLoop fuel dd0 msgType children components doc

end FixRs

namespace FixRs

/-! ### `SessionId` (`src/session/session_id.rs`) -/

/-- `SessionId`: the identity tuple plus the derived textual `id`.
`derive(PartialEq, Eq)` compares all fields structurally, which the
embedding mirrors with `DecidableEq`. -/
structure SessionId where
  beginString : String
  senderCompid : String
  senderSubid : Option String
  senderLocationid : Option String
  targetCompid : String
  targetSubid : Option String
  targetLocationid : Option String
  sessionQualifier : Option String
  id : String
deriving DecidableEq, Repr

/-- The string `set_session_id` appends to the empty `id`:
`BEGIN:SENDER[/SUB[/LOC]]->TARGET[/SUB[/LOC]]`; the qualifier never
appears. -/
def sessionIdText (s : SessionId) : String :=
  s.beginString ++ ":" ++ s.senderCompid ++
  (match s.senderSubid with
   | some sub => "/" ++ sub
   | none => "") ++
  (match s.senderLocationid with
   | some loc => "/" ++ loc
   | none => "") ++
  "->" ++ s.targetCompid ++
  (match s.targetSubid with
   | some sub => "/" ++ sub
   | none => "") ++
  (match s.targetLocationid with
   | some loc => "/" ++ loc
   | none => "")

/-- The optional-field normalisation in `SessionIdBuilder::build`: an
empty string becomes `None`. -/
def normOpt : Option String → Option String
  | some s => if s.isEmpty then none else some s
  | none => none

/-- `SessionIdBuilder::build` (src/session/session_id.rs:132-171):
normalise the optional components, keep the qualifier as supplied, and
derive `id` via `set_session_id`. -/
def buildSessionId (beginString senderComp : String)
    (senderSub senderLoc : Option String) (targetComp : String)
    (targetSub targetLoc qualifier : Option String) : SessionId :=
  let s0 : SessionId :=
    { beginString := beginString
      senderCompid := senderComp
      senderSubid := normOpt senderSub
      senderLocationid := normOpt senderLoc
      targetCompid := targetComp
      targetSubid := normOpt targetSub
      targetLocationid := normOpt targetLoc
      sessionQualifier := qualifier
      id := "" }
  { s0 with id := sessionIdText s0 }

/-- `impl Hash for SessionId` hashes only `id`: the hash is a function of
this key. -/
def SessionId.hashKey (s : SessionId) : String := s.id

/-! ### `Session::verify` (`src/session/session_and_state.rs`) -/

/-- `Session` (the configuration fields; the channel handle and the
shared dictionary `Arc` are runtime plumbing that `verify` never reads). -/
structure Session where
  sessionId : SessionId
  heartbeatIntrvl : Nat
  isActive : Bool
  resetOnLogon : Bool
  resetOnLogout : Bool
  resetOnDisconnect : Bool

/-- `Session::verify` (src/session/session_and_state.rs:76-80): the body
is `Ok(())` — no check is performed on the message or the session map. -/
def Session.verify (msg : Message)
    (sessions : List (SessionId × Session)) : Except String Unit :=
  Except.ok ()

/-! ### `SessionSchedule::is_session_time`
(`src/session/session_schedule.rs`)

`NaiveTime` values are modelled by `Nat` (seconds of day) and the local
timezone-adjusted datetime `self.time_zone.from_utc_datetime(&Utc::now())`
by a pair `(day : Int, timeOfDay : Nat)`: the function's comparisons only
ever compare datetimes on the same calendar day, where the chrono order
coincides with the lexicographic order on this pair.  Weekdays are
`Nat % 7` day numbers (`weekday d = d mod 7`). -/

/-- A local datetime: day number and time of day. -/
structure LocalDateTime where
  day : Int
  tod : Nat
deriving DecidableEq, Repr

/-- `DateTime` comparison on the `(day, time)` pair. -/
def ldtLe (a b : LocalDateTime) : Bool :=
  a.day < b.day || (a.day == b.day && a.tod ≤ b.tod)

/-- `SessionSchedule` (start/end time, optional start/end weekday,
non-stop flag; the timezone is absorbed into the local `now`). -/
structure SessionSchedule where
  startTime : Nat
  endTime : Nat
  startDay : Option Nat
  endDay : Option Nat
  isNonStop : Bool

/-- The weekday of a day number. -/
def weekdayOf (d : Int) : Nat := (d % 7).toNat

/-- The backward walk of `is_session_time`: step `date.pred()` until the
weekday equals `startWd`, returning `none` (out of session) if `endWd` is
met on the way.  At most 7 steps are ever taken; the fuel of 8 can
therefore not run out (`fuelOut` is unreachable for real weekday
arguments). -/
def walkBackToStart (fuel : Nat) (startWd endWd : Nat) (d : Int) :
    Option (Option Int) :=
  match fuel with
  | 0 => none
  | fuel + 1 =>
    if weekdayOf d = startWd then some (some d)
    else
      let d1 := d - 1
      if weekdayOf d1 = endWd then some none
      else walkBackToStart fuel startWd endWd d1

/-- The forward walk of `is_session_time`: step `date.succ()` until the
weekday equals `endWd`, returning `none` (out of session) if `startWd` is
met on the way. -/
def walkForwardToEnd (fuel : Nat) (startWd endWd : Nat) (d : Int) :
    Option (Option Int) :=
  match fuel with
  | 0 => none
  | fuel + 1 =>
    if weekdayOf d = endWd then some (some d)
    else
      let d1 := d + 1
      if weekdayOf d1 = startWd then some none
      else walkForwardToEnd fuel startWd endWd d1

/-- `SessionSchedule::is_session_time`
(src/session/session_schedule.rs:71-118) as a function of the local
`now`: non-stop sessions are always in session; with no weekdays the
daily window is `today_start <= now && now <= today_end`; with both
weekdays the weekly window is computed by the two walks.  `none` is the
`unwrap` panic when exactly one weekday is set, or exhausted walk fuel
(unreachable). -/
def isSessionTime (s : SessionSchedule) (now : LocalDateTime) :
    Option Bool :=
  if s.isNonStop then some true
  else
    let todayStart : LocalDateTime := ⟨now.day, s.startTime⟩
    let todayEnd : LocalDateTime := ⟨now.day, s.endTime⟩
    match s.startDay, s.endDay with
    | none, none => some (ldtLe todayStart now && ldtLe now todayEnd)
    | some startWd, some endWd =>
      (match walkBackToStart 8 startWd endWd todayStart.day with
       | none => none
       | some none => some false
       | some (some startDate) =>
         (match walkForwardToEnd 8 startWd endWd todayEnd.day with
          | none => none
          | some none => some false
          | some (some endDate) =>
            let weeklyStart : LocalDateTime := ⟨startDate, todayStart.tod⟩
            let weeklyEnd : LocalDateTime := ⟨endDate, todayEnd.tod⟩
            some (ldtLe weeklyStart now && ldtLe now weeklyEnd)))
    | _, _ => none

end FixRs

namespace FixRs

/-! ### Fixtures and statement helpers -/

/-- Reject reasons the tokeniser/parser constructs somewhere in
`src/message.rs` (every other variant, `InvalidChecksum` and
`TagAppearsMoreThanOnce` among them, has no construction site on the
parsing path). -/
def parserReason (r : SessionRejectReason) : Bool :=
  match r with
  | .invalidTag => true
  | .tagSpecifiedWithoutValue => true
  | .tagSpecifiedOutOfOrder => true
  | .requiredTagMissing => true
  | .tagNotDefinedForMsgType => true
  | .incorrectDataFormatForValue => true
  | .incorrectNumInGroupCountForRepeatingGroup => true
  | .repeatingGroupsOutOfOrder => true
  | _ => false

/-- Whether the outcome is an `err` with the given reason. -/
def PRes.isErrReason (p : PRes α) (r : SessionRejectReason) : Bool :=
  match p with
  | .err e => e == r
  | _ => false

/-- The rendering of a parse outcome (empty string when not `ok`). -/
def PRes.renderOf : PRes Message → String
  | .ok m => m.render
  | _ => ""

/-- The body-map value of a tag in a parse outcome. -/
def PRes.bodyField (p : PRes Message) (tag : Nat) : Option String :=
  match p with
  | .ok m => m.body.getField? tag
  | _ => none

/-- The header group stored under a tag in a parse outcome. -/
def PRes.headerGroup (p : PRes Message) (tag : Nat) : Option Group :=
  match p with
  | .ok m => m.header.getGroup tag
  | _ => none

/-- The trailer-map value of a tag in a parse outcome. -/
def PRes.trailerField (p : PRes Message) (tag : Nat) : Option String :=
  match p with
  | .ok m => m.trailer.getField? tag
  | _ => none

/-- Byte sum of an ASCII string (the spec's checksum quantity: every
character in play is a single byte). -/
def byteSum (s : String) : Nat :=
  s.data.foldl (fun a c => a + c.toNat) 0

/-- Zero-pad a number to three digits (`format!("{:0>3}", _)`). -/
def pad3 (n : Nat) : String :=
  let r := Nat.repr n
  if r.length < 3 then String.mk (List.replicate (3 - r.length) '0') ++ r
  else r

/-- Modelled from the spec: the inner dictionary of the FIX 4.3 header
repeating group `NoHops` (tag 627).  The dictionary file
`resources/FIX43.xml` is repository data outside `src/`; the spec fixes
the group's delimiter 628 and instance fields 628, 629, 630 in
declaration order. -/
def hopDD : DataDictionary :=
  .mk [("Header", [628, 629, 630])] [("Header", [])] [] [628, 629, 630]

/-- Modelled from the spec: the fragment of the loaded FIX 4.3
dictionary the sample messages touch — header fields
8, 9, 35, 34, 49, 52, 56 and the group-count tag 627 with the `NoHops`
group info, trailer field 10, and Logon (`35=A`) body fields 98, 108,
keyed by the msg-type tokens the parser queries
(`HEADER_ID` / `TRAILER_ID` / `"A"`). -/
def ddFix43 : DataDictionary :=
  .mk [("Header", [8, 9, 35, 34, 49, 52, 56, 627]), ("Trailer", [10]),
       ("A", [98, 108])]
      [("Header", [8, 9, 35, 49, 56]), ("Trailer", [10]), ("A", [98])]
      [("Header", [(627, .mk 628 hopDD)])]
      []

/-- The repository's own test input `msg_test_with_header_group`
(src/message.rs:568, with `|` replaced by SOH): a header `NoHops` group
declaring `627=1` followed by exactly one instance. -/
def msgHeaderGroup : String :=
  "8=FIX.4.3\x019=73\x0135=A\x0134=0\x0149=BANZAI\x0152=20221006-08:43:36.522\x0156=FIXIMULATOR\x01627=1\x01628=hopcompid\x01629=20221006-08:43:36.522\x01630=0\x0198=0\x01108=30\x0110=061\x01"

/-- Everything before the checksum field of the bad-checksum message:
body length is genuinely 72 bytes (tags 35 through 108), and the byte
sum of this prefix is 4 mod 256, so the correct trailer would be
`10=004`. -/
def c2prefix : String :=
  "8=FIX.4.3\x019=72\x0135=A\x0134=0\x0149=BANZAI\x0152=20221006-08:43:36.522\x0156=FIXIMULATOR\x0198=0\x01108=30\x01"

/-- A correctly framed message whose checksum field `10=061` differs
from the true checksum `004` of its prefix. -/
def c2msg : String := c2prefix ++ "10=061" ++ sohStr

/-- A correctly framed message (body length 15, checksum 163) in which
body tag 98 appears twice with different values. -/
def msgDup : String :=
  "8=FIX.4.3\x019=15\x0135=A\x0198=0\x0198=1\x0110=163\x01"

/-- What rendering the parse of `msgDup` produces: the first `98` token
is gone (the second overwrote it). -/
def msgDupRendered : String :=
  "8=FIX.4.3\x019=15\x0135=A\x0198=1\x0110=163\x01"

/-- A well-tokenisable input with a single `tag=value` field. -/
def c9input : String := "8=FIX.4.3" ++ sohStr

/-- C4 fixture, `fields` section: one field `f` numbered 100. -/
def c4doc : List (String × Nat) := [("f", 100)]

/-- C4 fixture, `components` section: component `C1` contains component
`C2` (required attribute `r2`); `C2` contains field `f` (required
attribute `rf`). -/
def c4components (r2 rf : Bool) : List (String × List XmlChild) :=
  [("C1", [XmlChild.comp "C2" r2]), ("C2", [XmlChild.field "f" rf])]

/-- C4 fixture: expand message `D` whose sole child is component `C1`
with required attribute `r1`. -/
def c4run (r1 r2 rf : Bool) : BRes DataDictionary :=
  addXmlMessage 10 DataDictionary.empty "D" [XmlChild.comp "C1" r1]
    (c4components r2 rf) c4doc

/-- The required-field set recorded for message `D` by the C4 fixture
run (a sentinel that cannot contain 100 when the run does not succeed). -/
def c4required (r1 r2 rf : Bool) : List Nat :=
  match c4run r1 r2 rf with
  | .ok dd => (dd.msgRequiredFields.lookup "D").getD []
  | _ => []

/-- Two builder runs that differ only in the session qualifier. -/
def c6a : SessionId :=
  buildSessionId "FIX.4.3" "SENDER" none none "TARGET" none none
    (some "q1")

/-- See `c6a`. -/
def c6b : SessionId :=
  buildSessionId "FIX.4.3" "SENDER" none none "TARGET" none none
    (some "q2")

/-- A message whose BeginString is `FIX.4.2`. -/
def c7msg : Message :=
  ⟨FieldMap.empty.setField ⟨8, "FIX.4.2"⟩, FieldMap.empty, FieldMap.empty⟩

/-- A session whose identity carries BeginString `FIX.4.3`. -/
def c7session : Session :=
  ⟨buildSessionId "FIX.4.3" "ACC" none none "INIT" none none none,
   30, false, true, true, true⟩

end FixRs

namespace FixRs

/-! ### Helper lemmas: every reject reason the parser returns comes from
a construction site in `src/message.rs` -/

theorem tokenizePieces_err_confined :
    ∀ (l : List String) (r : SessionRejectReason),
      tokenizePieces l = .err r → parserReason r = true := by
  intro l
  induction l with
  | nil => intro r h; simp [tokenizePieces] at h
  | cons p rest ih =>
    intro r h
    rw [tokenizePieces] at h
    split at h
    · cases h; rfl
    · split at h
      · cases h; rfl
      · split at h
        · cases h; rfl
        · split at h
          · cases h
          · next heq => cases h; exact ih _ heq
          · cases h
          · cases h

theorem groupErrConfined :
    ∀ (fuel : Nat),
      (∀ dd mt fld fmap v r,
        parseGroup fuel dd mt fld fmap v = .err r →
          parserReason r = true)
      ∧ (∀ dd rgdd mt fo delim decl fmap1 ct g a p v r,
        parseGroupLoop fuel dd rgdd mt fo delim decl fmap1 ct g a p v
          = .err r → parserReason r = true) := by
  intro fuel
  induction fuel with
  | zero =>
    constructor
    · intro dd mt fld fmap v r h; rw [parseGroup] at h; cases h
    · intro dd rgdd mt fo delim decl fmap1 ct g a p v r h
      rw [parseGroupLoop.eq_def] at h; cases h
  | succ n ih =>
    constructor
    · intro dd mt fld fmap v r h
      rw [parseGroup] at h
      split at h
      · cases h; rfl
      · split at h
        · cases h; rfl
        · exact ih.2 _ _ _ _ _ _ _ _ _ _ _ _ _ h
    · intro dd rgdd mt fo delim decl fmap1 ct g a p v r h
      cases v with
      | nil =>
        simp only [parseGroupLoop] at h
        split at h
        · cases h; rfl
        · cases h
      | cons nf rest =>
        simp only [parseGroupLoop] at h
        split at h
        · split at h
          · cases h; rfl
          · split at h
            · cases h
            · split at h
              · split at h
                · exact ih.2 _ _ _ _ _ _ _ _ _ _ _ _ _ h
                · next heq => cases h; exact ih.1 _ _ _ _ _ _ heq
                · cases h
                · cases h
              · exact ih.2 _ _ _ _ _ _ _ _ _ _ _ _ _ h
        · split at h
          · split at h
            · cases h; rfl
            · split at h
              · cases h
              · split at h
                · exact ih.2 _ _ _ _ _ _ _ _ _ _ _ _ _ h
                · next heq => cases h; exact ih.1 _ _ _ _ _ _ heq
                · cases h
                · cases h
          · split at h
            · split at h
              · cases h; rfl
              · split at h
                · cases h
                · split at h
                  · cases h; rfl
                  · split at h
                    · cases h
                    · exact ih.2 _ _ _ _ _ _ _ _ _ _ _ _ _ h
            · split at h
              · cases h; rfl
              · cases h

theorem parseHeaderLoop_err_confined :
    ∀ (fuel : Nat) (dd : DataDictionary) (header : FieldMap)
      (v : List StringField) (r : SessionRejectReason),
      parseHeaderLoop fuel dd header v = .err r →
        parserReason r = true := by
  intro fuel
  induction fuel with
  | zero => intro dd header v r h; rw [parseHeaderLoop] at h; cases h
  | succ n ih =>
    intro dd header v r h
    cases v with
    | nil => simp only [parseHeaderLoop] at h; cases h
    | cons fld rest =>
      simp only [parseHeaderLoop] at h
      split at h
      · cases h
      · split at h
        · split at h
          · exact ih _ _ _ _ h
          · next heq => cases h; exact (groupErrConfined n).1 _ _ _ _ _ _ heq
          · cases h
          · cases h
        · exact ih _ _ _ _ h

theorem parseHeader_err_confined :
    ∀ (fuel : Nat) (dd : DataDictionary) (header : FieldMap)
      (v : List StringField) (r : SessionRejectReason),
      parseHeader fuel dd header v = .err r → parserReason r = true := by
  intro fuel dd header v r h
  rw [parseHeader.eq_def] at h
  split at h
  · cases h
  · split at h
    · cases h; rfl
    · split at h
      · cases h
      · split at h
        · cases h; rfl
        · split at h
          · cases h
          · split at h
            · cases h; rfl
            · exact parseHeaderLoop_err_confined _ _ _ _ _ h

theorem parseBodyLoop_err_confined :
    ∀ (fuel : Nat) (dd : DataDictionary) (msgType : String)
      (body : FieldMap) (v : List StringField) (r : SessionRejectReason),
      parseBodyLoop fuel dd msgType body v = .err r →
        parserReason r = true := by
  intro fuel
  induction fuel with
  | zero => intro dd mt body v r h; rw [parseBodyLoop] at h; cases h
  | succ n ih =>
    intro dd mt body v r h
    cases v with
    | nil => simp only [parseBodyLoop] at h; cases h
    | cons fld rest =>
      simp only [parseBodyLoop] at h
      split at h
      · cases h; rfl
      · split at h
        · cases h
        · split at h
          · split at h
            · exact ih _ _ _ _ _ h
            · next heq =>
                cases h; exact (groupErrConfined n).1 _ _ _ _ _ _ heq
            · cases h
            · cases h
          · exact ih _ _ _ _ _ h

theorem parseBody_err_confined :
    ∀ (fuel : Nat) (dd : DataDictionary) (header body : FieldMap)
      (v : List StringField) (r : SessionRejectReason),
      parseBody fuel dd header body v = .err r →
        parserReason r = true := by
  intro fuel dd header body v r h
  rw [parseBody] at h
  split at h
  · cases h; rfl
  · exact parseBodyLoop_err_confined _ _ _ _ _ _ h

theorem parseTrailer_err_confined :
    ∀ (fuel : Nat) (dd : DataDictionary) (trailer : FieldMap)
      (v : List StringField) (r : SessionRejectReason),
      parseTrailer fuel dd trailer v = .err r →
        parserReason r = true := by
  intro fuel
  induction fuel with
  | zero => intro dd trailer v r h; rw [parseTrailer] at h; cases h
  | succ n ih =>
    intro dd trailer v r h
    cases v with
    | nil => simp only [parseTrailer] at h; cases h
    | cons fld rest =>
      simp only [parseTrailer] at h
      split at h
      · cases h; rfl
      · exact ih _ _ _ _ h

theorem fromVec_err_confined :
    ∀ (v : List StringField) (dd : DataDictionary)
      (r : SessionRejectReason),
      fromVec v dd = .err r → parserReason r = true := by
  intro v dd r h
  rw [fromVec] at h
  split at h
  · split at h
    · split at h
      · cases h
      · next heq => cases h; exact parseTrailer_err_confined _ _ _ _ _ heq
      · cases h
      · cases h
    · next heq => cases h; exact parseBody_err_confined _ _ _ _ _ _ heq
    · cases h
    · cases h
  · next heq => cases h; exact parseHeader_err_confined _ _ _ _ _ heq
  · cases h
  · cases h

theorem fromStr_err_confined :
    ∀ (s : String) (dd : DataDictionary) (r : SessionRejectReason),
      Message.fromStr s dd = .err r → parserReason r = true := by
  intro s dd r h
  rw [Message.fromStr] at h
  split at h
  · exact fromVec_err_confined _ _ _ h
  · next heq => cases h; exact tokenizePieces_err_confined _ _ heq
  · cases h
  · cases h

theorem fromStr_isErrReason_false :
    ∀ (s : String) (dd : DataDictionary) (r : SessionRejectReason),
      parserReason r = false →
      (Message.fromStr s dd).isErrReason r = false := by
  intro s dd r hr
  cases hE : Message.fromStr s dd with
  | err e =>
    have hc := fromStr_err_confined s dd e hE
    simp only [PRes.isErrReason]
    by_contra hne
    rw [Bool.not_eq_false, beq_iff_eq] at hne
    rw [hne, hr] at hc
    cases hc
  | ok a => rfl
  | stuck => rfl
  | fuelOut => rfl

end FixRs

namespace FixRs

/-- `FieldMap::set_field` on the same tag twice keeps only the second
value. -/
theorem setField_overwrites :
    ∀ (m : FieldMap) (t : Nat) (v1 v2 : String),
      ((m.setField ⟨t, v1⟩).setField ⟨t, v2⟩).getField? t = some v2 := by
  intro m t v1 v2
  cases m with
  | mk fs gs ord =>
    simp only [FieldMap.setField, FieldMap.getField?, FieldMap.fields]
    induction fs with
    | nil => simp [setFieldList]
    | cons g gs ih =>
      by_cases hg : g.tag = t
      · simp [setFieldList, hg]
      · simp [setFieldList, hg, ih]

/-! ### The claims -/

/-- C1 (code_bug): on the repository's own header-group test input
(`msg_test_with_header_group`, `627=1` followed by exactly one complete
instance), parsing does not produce a size-1 group with delimiter 628 as
the claim and the test assert; it rejects with
`IncorrectNumInGroupCountForRepeatingGroup`, because the overflow check
`actual_count + 1 >= declared_count` in `parse_group`
(src/message.rs:432) already fires when the new instance index equals
`n-1`, i.e. on the last legitimate delimiter occurrence. -/
theorem C1_header_group_codeBug :
    (Message.fromStr msgHeaderGroup ddFix43).errReason
      = some .incorrectNumInGroupCountForRepeatingGroup
    ∧ (Message.fromStr msgHeaderGroup ddFix43).headerGroup 627 = none :=
  ⟨by rfl, by rfl⟩

/-- C2 (counterexample): a correctly framed message whose checksum field
`10=061` differs from the true byte-sum checksum `004` of its prefix is
accepted by `Message::from_str` — it is not rejected with
`InvalidChecksum`, refuting the claim that such a message fails with that
reason. -/
theorem C2_checksum_counterexample :
    (Message.fromStr c2msg ddFix43).isOk = true
    ∧ (Message.fromStr c2msg ddFix43).trailerField 10 = some "061"
    ∧ pad3 (byteSum c2prefix % 256) = "004"
    ∧ c2msg = c2prefix ++ "10=061" ++ sohStr :=
  ⟨by rfl, by rfl, by rfl, rfl⟩

/-- C2 (amended): inbound processing performs no checksum verification
at all — for every input string and dictionary, `Message::from_str`
never returns the `InvalidChecksum` reject reason. -/
theorem C2_amended_no_checksum_check :
    ∀ (s : String) (dd : DataDictionary),
      (Message.fromStr s dd).isErrReason .invalidChecksum = false :=
  fun s dd => fromStr_isErrReason_false s dd _ (by decide)

/-- C3 (counterexample): for the correctly framed byte sequence `msgDup`
(body length 15 and checksum 163 both correct) in which tag 98 appears
twice, parsing succeeds but rendering the parsed message does not
reproduce the input, refuting `render(parse(b)) == b`. -/
theorem C3_roundtrip_counterexample :
    (Message.fromStr msgDup ddFix43).isOk = true
    ∧ (Message.fromStr msgDup ddFix43).renderOf ≠ msgDup :=
  ⟨by rfl, by decide⟩

/-- C3 (amended): rendering the parse of `msgDup` yields the input with
the overwritten first `98` token removed — parsing collapses a repeated
tag to its last occurrence, so the round-trip reproduces the input only
up to that collapse. -/
theorem C3_amended_roundtrip :
    (Message.fromStr msgDup ddFix43).renderOf = msgDupRendered
    ∧ msgDupRendered ≠ msgDup :=
  ⟨by rfl, by decide⟩

/-- C4 (counterexample): in the fixture where message `D` has component
`C1` (required attribute N) containing component `C2` (required Y)
containing field `f` = 100 (required Y), the loaded dictionary puts 100
into the required set even though the conjunction along the enclosing
chain is false — refuting the claimed recursive AND. -/
theorem C4_requiredChain_counterexample :
    (c4run false true true).isOk = true
    ∧ (c4required false true true).contains 100 = true
    ∧ (false && (true && true)) = false := by decide

/-- C4 (amended): a field `f` declared in component `C2` is in the
required set iff `C2.required AND f.required`, where `C2.required` is
taken standalone: the required attribute `r1` of the component enclosing
`C2` does not participate (`add_xml_component` recurses into a component
child with that child's own attribute, not the conjunction). -/
theorem C4_amended_required_and :
    ∀ (r1 r2 rf : Bool),
      (c4run r1 r2 rf).isOk = true
      ∧ (c4required r1 r2 rf).contains 100 = (r2 && rf) := by decide

/-- C5 (counterexample): a daily schedule with `start 22:00 > end 06:00`
reports NOT in session at local 23:00, although 23:00 lies in the
claimed midnight-wrapping window (it is at or after the start time) —
the daily branch never wraps. -/
theorem C5_wrap_counterexample :
    isSessionTime ⟨79200, 21600, none, none, false⟩ ⟨0, 82800⟩
      = some false
    ∧ 21600 < 79200 ∧ 79200 ≤ 82800 := by decide

/-- C5 (amended): for a daily schedule the result is exactly
`start_time ≤ now.time ∧ now.time ≤ end_time` on the current day; in
particular when `start_time > end_time` the window is empty and
`is_session_time` is always false — there is no wrap past midnight. -/
theorem C5_amended_daily_window :
    ∀ (st et : Nat) (d : Int) (t : Nat),
      isSessionTime ⟨st, et, none, none, false⟩ ⟨d, t⟩
        = some (decide (st ≤ t) && decide (t ≤ et)) := by
  intro st et d t
  simp [isSessionTime, ldtLe]

/-- C6 (counterexample): two `SessionId`s that differ only in the
`session_qualifier` have identical textual forms (and hash keys) yet
compare unequal under the derived `PartialEq` — refuting the claim that
equality holds iff the textual forms are equal. -/
theorem C6_qualifier_counterexample :
    c6a.id = c6b.id ∧ c6a.hashKey = c6b.hashKey ∧ c6a ≠ c6b :=
  ⟨by rfl, by rfl, by decide⟩

/-- C6 (amended): the builder-derived textual form and hash key ignore
the qualifier, while the derived equality is field-wise: two builds that
agree on every component except the qualifier have equal `id` and equal
hash key, and are equal exactly when the qualifiers are equal.  Hashing
therefore does not agree with equality on qualifier-differing values. -/
theorem C6_amended_equality :
    ∀ (bs sc : String) (ss sl : Option String) (tc : String)
      (ts tl q1 q2 : Option String),
      (buildSessionId bs sc ss sl tc ts tl q1).id
        = (buildSessionId bs sc ss sl tc ts tl q2).id
      ∧ (buildSessionId bs sc ss sl tc ts tl q1).hashKey
        = (buildSessionId bs sc ss sl tc ts tl q2).hashKey
      ∧ ((buildSessionId bs sc ss sl tc ts tl q1)
          = (buildSessionId bs sc ss sl tc ts tl q2) ↔ q1 = q2) := by
  intro bs sc ss sl tc ts tl q1 q2
  refine ⟨rfl, rfl, ?_, ?_⟩
  · intro h; exact congrArg SessionId.sessionQualifier h
  · intro h; rw [h]

/-- C7 (counterexample): `Session::verify` returns `Ok(())` for a
message whose BeginString `FIX.4.2` differs from the session's
`FIX.4.3` — no session-level reject is generated, refuting the claim
that a BeginString mismatch produces an error. -/
theorem C7_verify_counterexample :
    Session.verify c7msg [(c7session.sessionId, c7session)]
      = Except.ok ()
    ∧ c7msg.header.getField? 8 = some "FIX.4.2"
    ∧ c7session.sessionId.beginString = "FIX.4.3" :=
  ⟨rfl, by rfl, rfl⟩

/-- C7 (amended): `Session::verify` is an unconditional success — its
body is `Ok(())` and it inspects neither the message nor the session
registry, so no BeginString / CompID / SendingTime violation can ever
produce an error from it. -/
theorem C7_amended_verify_trivial :
    ∀ (msg : Message) (sessions : List (SessionId × Session)),
      Session.verify msg sessions = Except.ok () :=
  fun _ _ => rfl

/-- C8: for every tokenised stream of at least three fields whose first
three tags are not exactly `8, 9, 35` in that order, parsing fails with
`TagSpecifiedOutOfOrder` (the check at the top of `parse_header`). -/
theorem C8_header_prefix_order :
    ∀ (f0 f1 f2 : StringField) (rest : List StringField)
      (dd : DataDictionary),
      ¬(f0.tag = beginStringField ∧ f1.tag = bodyLengthField
        ∧ f2.tag = msgTypeField) →
      fromVec (f0 :: f1 :: f2 :: rest) dd
        = .err .tagSpecifiedOutOfOrder := by
  intro f0 f1 f2 rest dd hno
  have hph : ∀ (fuel : Nat) (header : FieldMap),
      parseHeader fuel dd header (f0 :: f1 :: f2 :: rest)
        = .err .tagSpecifiedOutOfOrder := by
    intro fuel header
    rw [parseHeader]
    by_cases h0 : f0.tag = beginStringField
    · by_cases h1 : f1.tag = bodyLengthField
      · by_cases h2 : f2.tag = msgTypeField
        · exact absurd ⟨h0, h1, h2⟩ hno
        · simp [h0, h1, h2]
      · simp [h0, h1]
    · simp [h0]
  rw [fromVec]
  rw [hph]

/-- C8 (witness): a message starting `35=A`, `8=FIX.4.3`, `9=5` is
rejected with `TagSpecifiedOutOfOrder`. -/
theorem C8_header_prefix_order_witness :
    fromVec [⟨35, "A"⟩, ⟨8, "FIX.4.3"⟩, ⟨9, "5"⟩] ddFix43
      = .err .tagSpecifiedOutOfOrder :=
  C8_header_prefix_order ⟨35, "A"⟩ ⟨8, "FIX.4.3"⟩ ⟨9, "5"⟩ [] ddFix43
    (by decide)

/-- C9: the single-field input `8=FIX.4.3␁` tokenises successfully, but
`Message::from_str` then panics (models the out-of-bounds `v[1]` index
in `parse_header`) instead of returning a session-reject error. -/
theorem C9_short_input_panics :
    (tokenize c9input).isOk = true
    ∧ Message.fromStr c9input ddFix43 = .stuck :=
  ⟨by rfl, by rfl⟩

/-- C10: `set_field` overwrites — storing the same tag twice keeps the
last value; the duplicate-98 message parses successfully with body 98
mapped to the second value `1`; and for every input and dictionary the
parser never produces the `TagAppearsMoreThanOnce` reject reason. -/
theorem C10_duplicate_tag_last_wins :
    (∀ (m : FieldMap) (t : Nat) (v1 v2 : String),
      ((m.setField ⟨t, v1⟩).setField ⟨t, v2⟩).getField? t = some v2)
    ∧ (Message.fromStr msgDup ddFix43).isOk = true
    ∧ (Message.fromStr msgDup ddFix43).bodyField 98 = some "1"
    ∧ (∀ (s : String) (dd : DataDictionary),
      (Message.fromStr s dd).isErrReason .tagAppearsMoreThanOnce
        = false) :=
  ⟨setField_overwrites, by rfl, by rfl,
   fun s dd => fromStr_isErrReason_false s dd _ (by decide)⟩

end FixRs
